import Mathlib

/-!
Verification of the MediRoute dispatch-orchestration logic.

The definitions below are a shallow embedding of the project source:

* GeoUtility helpers (calculateDistance, calculateETA, getRouteDirection)
  from src/src/hooks/useAdminSystem.tsx, lines 898 to 945.
* Admin traffic-signal and analytics operations (overrideSignal,
  toggleSignalOverride, createGreenCorridor, loadAnalytics) from
  src/src/hooks/useAdminSystem.tsx and src/src/pages/AdminCommandCenter.tsx.
* The emergency lifecycle state machine, the dispatch coordinator and the
  hospital selector, whose implementations are not part of the published
  sources (only their callers in src/unnamed/part_000 are); these are
  modelled from the design document, as marked on each definition.

JavaScript floating-point numbers are idealised as real numbers, and the
trigonometric functions of Math are the corresponding real functions.
-/

namespace Mediroute

/-- Error taxonomy of the design document, section 7. -/
inductive DispatchError where
  | VehicleBusy
  | InvalidTransition
  | NoAvailableHospital
  | RouteUnavailable
  | InvalidInput
deriving DecidableEq, Repr, Fintype

/-! ## GeoUtility (src/src/hooks/useAdminSystem.tsx, lines 898 to 945) -/

/-- A WGS84 coordinate pair, in degrees. -/
structure Coordinate where
  lat : ℝ
  lng : ℝ

/-- Validity invariant of the data model: latitude within 90 degrees and
longitude within 180 degrees of zero. -/
def validCoordinate (p : Coordinate) : Prop := |p.lat| ≤ 90 ∧ |p.lng| ≤ 180

noncomputable section

/-- Embeds the helper toRadians of useAdminSystem.tsx line 917. -/
def toRadians (degrees : ℝ) : ℝ := degrees * (Real.pi / 180)

/-- The two-argument arctangent, as computed by Math.atan2(y, x). -/
def atan2 (y x : ℝ) : ℝ :=
  if 0 < x then Real.arctan (y / x)
  else if x < 0 then
    (if 0 ≤ y then Real.arctan (y / x) + Real.pi
     else Real.arctan (y / x) - Real.pi)
  else
    (if 0 < y then Real.pi / 2
     else if y < 0 then -(Real.pi / 2)
     else 0)

/-- The intermediate value a of calculateDistance, with dLat and dLng the
coordinate differences in radians: a = sin(dLat/2)^2 plus
cos(lat1) cos(lat2) sin(dLng/2)^2. -/
def haversineA (lat1 lng1 lat2 lng2 : ℝ) : ℝ :=
  Real.sin (toRadians (lat2 - lat1) / 2) *
      Real.sin (toRadians (lat2 - lat1) / 2) +
    Real.cos (toRadians lat1) * Real.cos (toRadians lat2) *
      Real.sin (toRadians (lng2 - lng1) / 2) *
      Real.sin (toRadians (lng2 - lng1) / 2)

/-- Embeds calculateDistance of useAdminSystem.tsx lines 898 to 915: the
Haversine formula with Earth radius 6371000 metres, with the intermediate
value a factored out as haversineA and c = 2 atan2(sqrt a, sqrt(1-a)). -/
def calculateDistance (lat1 lng1 lat2 lng2 : ℝ) : ℝ :=
  6371000 *
    (2 * atan2 (Real.sqrt (haversineA lat1 lng1 lat2 lng2))
      (Real.sqrt (1 - haversineA lat1 lng1 lat2 lng2)))

/-- The distance operation of the design document applied to coordinate
records, realised by calculateDistance. -/
def distanceMeters (a b : Coordinate) : ℝ :=
  calculateDistance a.lat a.lng b.lat b.lng

/-- Embeds calculateETA of useAdminSystem.tsx lines 922 to 926: converts
speed to metres per second and divides, returning 0 for a speed that is
not positive. -/
def calculateETA (distanceMeters speedKmh : ℝ) : ℝ :=
  if speedKmh ≤ 0 then 0
  else distanceMeters / (speedKmh * (1000 / 3600))

end

/-- The etaSeconds operation as the design document states it, section 4.1:
it fails with InvalidInput when the speed is not positive. Declared only to
state the divergence between the source and that sentence. -/
noncomputable def etaSecondsSpec (d speedKmh : ℝ) : Except DispatchError ℝ :=
  if speedKmh ≤ 0 then .error .InvalidInput
  else .ok (d / (speedKmh * 1000 / 3600))

/-- The four direction buckets of the type RouteDirection in
useAdminSystem.tsx line 745. -/
inductive RouteDirection where
  | N_S
  | S_N
  | E_W
  | W_E
deriving DecidableEq, Repr

/-- Truncation toward zero, as used by the remainder operator of JavaScript. -/
def jsTrunc (q : ℚ) : ℤ := if 0 ≤ q then ⌊q⌋ else ⌈q⌉

/-- The remainder operator of JavaScript on rational arguments. -/
def jsMod (x y : ℚ) : ℚ := x - y * (jsTrunc (x / y) : ℚ)

/-- Embeds getRouteDirection of useAdminSystem.tsx lines 937 to 945,
including its normalisation of the heading into the range 0 to 360. -/
def getRouteDirection (heading : ℚ) : RouteDirection :=
  let h := jsMod (jsMod heading 360 + 360) 360
  if 315 ≤ h ∨ h < 45 then .N_S
  else if 45 ≤ h ∧ h < 135 then .E_W
  else if 135 ≤ h ∧ h < 225 then .S_N
  else .W_E

/-! ## EmergencyLifecycle state machine

The useEmergencyTokens hook that implements the transitions is not among
the published sources; src/unnamed/part_000 (lines 125 to 169) only calls
startJourney, arrivedAtPatient, startToHospital, completeEmergency and
cancelEmergency on it.  The machine is therefore modelled from section 4.4
of the design document. -/

/-- The lifecycle states of an emergency request, design document
section 4.4. -/
inductive LifecycleState where
  | Created
  | HospitalAssigned
  | EnRouteToPickup
  | AtPickup
  | EnRouteToHospital
  | Completed
  | Cancelled
deriving DecidableEq, Repr, Fintype

/-- A state is non-terminal when it is neither Completed nor Cancelled. -/
def nonTerminal (s : LifecycleState) : Bool :=
  s != .Completed && s != .Cancelled

/-- The five transition calls of the lifecycle (create is an operation of
the coordinator, not of an existing request). -/
inductive LifecycleEvent where
  | startJourney
  | arrivedAtPickup
  | startToHospital
  | complete
  | cancel
deriving DecidableEq, Repr, Fintype

/-- Equality of transition results is decidable. -/
instance : DecidableEq (Except DispatchError LifecycleState)
  | .ok a, .ok b => decidable_of_iff (a = b) (by simp)
  | .ok _, .error _ => isFalse (by simp)
  | .error _, .ok _ => isFalse (by simp)
  | .error a, .error b => decidable_of_iff (a = b) (by simp)

/-- Modelled from the spec: the guarded transitions of section 4.4 of the
design document (the useEmergencyTokens implementation is not under src).
Each transition succeeds exactly when its guard state matches and
otherwise fails with InvalidTransition; cancel succeeds from every
non-terminal state. -/
def applyEvent : LifecycleState → LifecycleEvent → Except DispatchError LifecycleState
  | .HospitalAssigned, .startJourney => .ok .EnRouteToPickup
  | .EnRouteToPickup, .arrivedAtPickup => .ok .AtPickup
  | .AtPickup, .startToHospital => .ok .EnRouteToHospital
  | .EnRouteToHospital, .complete => .ok .Completed
  | s, .cancel => if nonTerminal s then .ok .Cancelled else .error .InvalidTransition
  | _, _ => .error .InvalidTransition

/-- The state after a transition call: the new state on success, the old
state unchanged on a rejected call. -/
def stepState (s : LifecycleState) (e : LifecycleEvent) : LifecycleState :=
  match applyEvent s e with
  | .ok t => t
  | .error _ => s

/-- Runs a sequence of transition calls from a state. -/
def runEvents (s : LifecycleState) (es : List LifecycleEvent) : LifecycleState :=
  es.foldl stepState s

/-- Position of a state in the progression of section 4.4; the two
terminal states share the top rank. -/
def stateRank : LifecycleState → ℕ
  | .Created => 0
  | .HospitalAssigned => 1
  | .EnRouteToPickup => 2
  | .AtPickup => 3
  | .EnRouteToHospital => 4
  | .Completed => 5
  | .Cancelled => 5

/-- The immediate successor of a state along the main progression. -/
def chainNext : LifecycleState → LifecycleState
  | .Created => .Created
  | .HospitalAssigned => .EnRouteToPickup
  | .EnRouteToPickup => .AtPickup
  | .AtPickup => .EnRouteToHospital
  | .EnRouteToHospital => .Completed
  | .Completed => .Completed
  | .Cancelled => .Cancelled

/-! ## DispatchCoordinator

Also absent from the published sources (part_000 is its only caller), so
modelled from sections 4.5 and 3 of the design document. -/

/-- An emergency request as the coordinator tracks it: identity, bound
vehicle and lifecycle status. -/
structure EmergencyRequest where
  id : ℕ
  vehicleId : ℕ
  status : LifecycleState
deriving DecidableEq, Repr

/-- The process-wide registry of requests. -/
structure DispatchCoordinator where
  requests : List EmergencyRequest
deriving DecidableEq, Repr

/-- True when the request is a live binding of the given vehicle. -/
def boundToVehicle (v : ℕ) (r : EmergencyRequest) : Bool :=
  r.vehicleId == v && nonTerminal r.status

/-- True when some non-terminal request already binds the vehicle. -/
def vehicleBusy (c : DispatchCoordinator) (v : ℕ) : Bool :=
  c.requests.any (boundToVehicle v)

/-- Modelled from the spec: DispatchCoordinator.create of section 4.5
(not under src).  It fails with VehicleBusy, with no side effects, when
the vehicle is already bound; otherwise it registers a fresh request in
state HospitalAssigned. -/
def create (c : DispatchCoordinator) (newId v : ℕ) :
    DispatchCoordinator × Option DispatchError :=
  if vehicleBusy c v then (c, some .VehicleBusy)
  else ({ requests := ⟨newId, v, .HospitalAssigned⟩ :: c.requests }, none)

/-- Modelled from the spec: forwarding a lifecycle transition call to the
request with the given id (sections 4.4 and 4.5; not under src). -/
def applyToRequest (c : DispatchCoordinator) (reqId : ℕ) (e : LifecycleEvent) :
    DispatchCoordinator :=
  { requests :=
      c.requests.map fun r =>
        if r.id == reqId then { r with status := stepState r.status e } else r }

/-- An operation on the coordinator: a creation attempt or a transition
call on a registered request. -/
inductive CoordOp where
  | create (newId v : ℕ)
  | event (reqId : ℕ) (e : LifecycleEvent)
deriving DecidableEq, Repr

/-- Applies one coordinator operation. -/
def applyOp (c : DispatchCoordinator) : CoordOp → DispatchCoordinator
  | .create newId v => (create c newId v).1
  | .event reqId e => applyToRequest c reqId e

/-- Runs a sequence of coordinator operations from the empty registry. -/
def runOps (ops : List CoordOp) : DispatchCoordinator :=
  ops.foldl applyOp { requests := [] }

/-- The binding invariant of the data model: any two live requests for
the same vehicle coincide, so a vehicle has at most one non-terminal
request. -/
def UniqueBinding (c : DispatchCoordinator) : Prop :=
  ∀ r1 ∈ c.requests, ∀ r2 ∈ c.requests,
    r1.vehicleId = r2.vehicleId →
      nonTerminal r1.status = true → nonTerminal r2.status = true → r1 = r2

/-- The binding invariant is decidable on any concrete registry. -/
instance (c : DispatchCoordinator) : Decidable (UniqueBinding c) :=
  decidable_of_iff
    (∀ r1 ∈ c.requests, ∀ r2 ∈ c.requests,
      r1.vehicleId = r2.vehicleId →
        nonTerminal r1.status = true → nonTerminal r2.status = true → r1 = r2)
    Iff.rfl

/-! ## HospitalSelector

The selection routine itself is not among the published sources; the
README (Hospital Logic section) and section 4.2 of the design document
describe it, so it is modelled from those words. -/

/-- The externally supplied capacity snapshot of one hospital, data model
section 3. -/
structure HospitalCapacitySnapshot where
  hospitalId : String
  coordinate : Coordinate
  totalBeds : ℕ
  occupiedBeds : ℕ
  icuBeds : ℕ
  occupiedIcuBeds : ℕ
  emergencyBeds : ℕ
  occupiedEmergencyBeds : ℕ
  acceptingPatients : Bool
  incomingAssignedCount : ℕ

/-- The four scoring weights of section 4.2, exposed as configuration. -/
structure SelectorWeights where
  w1 : ℝ
  w2 : ℝ
  w3 : ℝ
  w4 : ℝ

/-- The default weights of section 4.2. -/
def defaultWeights : SelectorWeights := ⟨1, 50000, 30000, 20000⟩

/-- Modelled from the spec: a bed-load ratio, treated as 1 (fully loaded)
when the denominator is 0 (section 4.2). -/
noncomputable def bedRatio (occupied beds : ℕ) : ℝ :=
  if beds = 0 then 1 else (occupied : ℝ) / (beds : ℝ)

/-- Modelled from the spec: the composite hospital score of section 4.2,
lower is better. -/
noncomputable def hospitalScore (w : SelectorWeights) (pickup : Coordinate)
    (h : HospitalCapacitySnapshot) : ℝ :=
  w.w1 * distanceMeters pickup h.coordinate +
    w.w2 * bedRatio h.occupiedIcuBeds h.icuBeds +
    w.w3 * bedRatio h.occupiedEmergencyBeds h.emergencyBeds +
    w.w4 * (h.incomingAssignedCount : ℝ)

/-- Candidate a beats candidate b: a strictly lower score, or an equal
score and a lexicographically smaller hospital id (section 4.2). -/
def betterCandidate (w : SelectorWeights) (pickup : Coordinate)
    (a b : HospitalCapacitySnapshot) : Prop :=
  hospitalScore w pickup a < hospitalScore w pickup b ∨
    (hospitalScore w pickup a = hospitalScore w pickup b ∧
      a.hospitalId < b.hospitalId)

open Classical in
/-- Modelled from the spec: the fold that keeps the best candidate seen so
far, replacing it only when a later hospital is strictly better. -/
noncomputable def pickBest (w : SelectorWeights) (pickup : Coordinate)
    (best : HospitalCapacitySnapshot) :
    List HospitalCapacitySnapshot → HospitalCapacitySnapshot
  | [] => best
  | h :: t =>
      if betterCandidate w pickup h best then pickBest w pickup h t
      else pickBest w pickup best t

/-- Modelled from the spec: HospitalSelector of section 4.2 (not under
src).  It keeps only the hospitals accepting patients, fails with
NoAvailableHospital when none remain, and otherwise returns the hospital
with the lowest score, ties broken by lexicographically smallest id. -/
noncomputable def selectHospital (w : SelectorWeights) (pickup : Coordinate)
    (hospitals : List HospitalCapacitySnapshot) :
    Except DispatchError HospitalCapacitySnapshot :=
  match hospitals.filter (fun h => h.acceptingPatients) with
  | [] => .error .NoAvailableHospital
  | h :: t => .ok (pickBest w pickup h t)

/-! ## Admin traffic-signal control
(src/src/hooks/useAdminSystem.tsx lines 394 to 464,
src/src/pages/AdminCommandCenter.tsx lines 303 to 320, and the
green_corridors table of
src/supabase/migrations/20251228000000_admin_command_center.sql). -/

/-- The status argument of overrideSignal: green, red or normal. -/
inductive OverrideStatus where
  | green
  | red
  | normal
deriving DecidableEq, Repr

/-- The string stored for a status value. -/
def OverrideStatus.asString : OverrideStatus → String
  | .green => "green"
  | .red => "red"
  | .normal => "normal"

/-- The columns of a traffic_signals row that the admin override paths
read and write. -/
structure TrafficSignalRow where
  signal_name : String
  manual_override : Bool
  override_status : OverrideStatus
  override_duration_minutes : ℤ
  current_status : String
deriving DecidableEq, Repr

/-- Embeds the row update of overrideSignal, useAdminSystem.tsx lines 394
to 424: manual_override is set exactly when the status is not normal, the
duration column gets the supplied minutes for green or red and 0 for
normal, and current_status follows the status. -/
def overrideSignal (s : TrafficSignalRow) (status : OverrideStatus)
    (durationMinutes : ℤ) : TrafficSignalRow :=
  { s with
    manual_override := status != .normal
    override_status := status
    override_duration_minutes := if status != .normal then durationMinutes else 0
    current_status := if status = .normal then "normal" else status.asString }

/-- The default duration argument of overrideSignal (15 minutes). -/
def overrideSignalDefaultDuration : ℤ := 15

/-- Calling overrideSignal without a duration argument uses the default. -/
def overrideSignalDefault (s : TrafficSignalRow) (status : OverrideStatus) :
    TrafficSignalRow :=
  overrideSignal s status overrideSignalDefaultDuration

/-- Embeds the row update of toggleSignalOverride, AdminCommandCenter.tsx
lines 303 to 320: the same flags with a fixed 15-minute duration, leaving
current_status untouched. -/
def toggleSignalOverride (s : TrafficSignalRow) (status : OverrideStatus) :
    TrafficSignalRow :=
  { s with
    manual_override := status != .normal
    override_status := status
    override_duration_minutes := if status != .normal then 15 else 0 }

/-- The columns of a green_corridors row relevant to its duration. -/
structure GreenCorridorRow where
  corridor_name : String
  start_lat : ℚ
  start_lng : ℚ
  end_lat : ℚ
  end_lng : ℚ
  duration_minutes : ℤ
  is_active : Bool
deriving DecidableEq, Repr

/-- Embeds the insert of createGreenCorridor, useAdminSystem.tsx lines 426
to 464: the record is created active with the supplied duration. -/
def createGreenCorridor (name : String) (startLat startLng endLat endLng : ℚ)
    (durationMinutes : ℤ) : GreenCorridorRow :=
  { corridor_name := name
    start_lat := startLat
    start_lng := startLng
    end_lat := endLat
    end_lng := endLng
    duration_minutes := durationMinutes
    is_active := true }

/-- The default duration of a green corridor: the default argument of
createGreenCorridor and the column default of the green_corridors table
(migration line 35) are both 15 minutes. -/
def greenCorridorDefaultDuration : ℤ := 15

/-- Calling createGreenCorridor without a duration argument uses the
default. -/
def createGreenCorridorDefault (name : String)
    (startLat startLng endLat endLng : ℚ) : GreenCorridorRow :=
  createGreenCorridor name startLat startLng endLat endLng
    greenCorridorDefaultDuration

/-- Modelled from the spec: the reset of an overridden signal back to
normal once its override window has elapsed.  No expiry sweep exists in
the published sources; section 4.3 of the design document states that the
15-minute grant duration mirrors the terminal normal reset after this
window. -/
def expireSignalOverride (s : TrafficSignalRow) (elapsedMinutes : ℤ) :
    TrafficSignalRow :=
  if s.manual_override = true ∧ s.override_duration_minutes ≤ elapsedMinutes then
    { s with
      manual_override := false
      override_status := .normal
      override_duration_minutes := 0
      current_status := "normal" }
  else s

/-! ## Admin analytics
(src/src/hooks/useAdminSystem.tsx lines 653 to 725 and
src/src/pages/AdminCommandCenter.tsx lines 202 to 237). -/

/-- The columns of an emergency_tokens row that loadAnalytics reads;
timestamps are milliseconds since the epoch. -/
structure EmergencyTokenRow where
  created_at : ℤ
  completed_at : Option ℤ
deriving DecidableEq, Repr

/-- The bed columns of a hospital_capacity row that loadAnalytics reads. -/
structure HospitalCapacityRow where
  total_beds : ℕ
  occupied_beds : ℕ
deriving DecidableEq, Repr

/-- The analytics record assembled by loadAnalytics. -/
structure SystemAnalyticsState where
  total_emergencies : ℕ
  avg_response_time_seconds : ℤ
  lives_saved_estimate : ℤ
  corridor_efficiency_percent : ℤ
  hospital_overload_rate : ℚ
  active_corridors : ℕ
  signals_overridden : ℕ
deriving Repr

/-- Embeds loadAnalytics of useAdminSystem.tsx lines 653 to 725: the
database filters become list filters over the supplied rows, with today
the millisecond timestamp of the start of the day. -/
def loadAnalytics (tokens : List EmergencyTokenRow)
    (corridors : List GreenCorridorRow) (signals : List TrafficSignalRow)
    (capacities : List HospitalCapacityRow) (today : ℤ) :
    SystemAnalyticsState :=
  let emergencies := tokens.filter fun t => decide (today ≤ t.created_at)
  let completedEmergencies := tokens.filter fun t =>
    t.completed_at.isSome && decide (today ≤ t.created_at)
  let totalEmergencies := emergencies.length
  let avgResponseTime : ℤ :=
    if completedEmergencies.length = 0 then 0
    else
      let totalResponseTime : ℤ :=
        (completedEmergencies.map
          (fun t => t.completed_at.getD 0 - t.created_at)).sum
      ⌊((totalResponseTime : ℚ) / (completedEmergencies.length : ℚ) / 1000)⌋
  let livesSaved : ℤ := ⌊(totalEmergencies : ℚ) * 0.85⌋
  let corridorEfficiency : ℤ := min 95 (60 + (totalEmergencies : ℤ) * 2)
  let hospitalOverload : ℚ :=
    if capacities.length = 0 then 0
    else
      ((capacities.map
          (fun h => (h.occupied_beds : ℚ) / (max h.total_beds 1 : ℕ))).sum /
          (capacities.length : ℚ)) * 100
  { total_emergencies := totalEmergencies
    avg_response_time_seconds := avgResponseTime
    lives_saved_estimate := livesSaved
    corridor_efficiency_percent := corridorEfficiency
    hospital_overload_rate := hospitalOverload
    active_corridors := (corridors.filter fun c => c.is_active).length
    signals_overridden := (signals.filter fun s => s.manual_override).length }

/-! ## Theorems -/

/-- The JavaScript remainder by 360 of a heading already in range. -/
theorem jsMod_of_lt (h : ℚ) (h0 : 0 ≤ h) (h1 : h < 360) : jsMod h 360 = h := by
  have hq0 : (0 : ℚ) ≤ h / 360 := by positivity
  have hq1 : h / 360 < 1 := by
    rw [div_lt_one (by norm_num)]
    exact h1
  have hfloor : ⌊h / 360⌋ = 0 := by
    rw [Int.floor_eq_zero_iff]
    exact ⟨hq0, hq1⟩
  rw [jsMod, jsTrunc, if_pos hq0, hfloor]
  push_cast
  ring

/-- The JavaScript remainder by 360 after adding one full turn. -/
theorem jsMod_add_turn (h : ℚ) (h0 : 0 ≤ h) (h1 : h < 360) :
    jsMod (h + 360) 360 = h := by
  have hq0 : (0 : ℚ) ≤ (h + 360) / 360 := by positivity
  have hfloor : ⌊(h + 360) / 360⌋ = 1 := by
    have hsplit : (h + 360) / 360 = h / 360 + 1 := by ring
    rw [hsplit, Int.floor_add_one, Int.floor_eq_zero_iff.mpr
      ⟨by positivity, by rw [div_lt_one (by norm_num)]; exact h1⟩]
    norm_num
  rw [jsMod, jsTrunc, if_pos hq0, hfloor]
  push_cast
  ring

/-- C7: getRouteDirection is a total function on headings with no error
case, and on the 0 to 360 degree range it maps each fixed 90-degree
sector centred on a cardinal direction to its own bucket: the sector
around north (315 and above, or below 45) to N_S, the sector around east
(45 to 135) to E_W, the sector around south (135 to 225) to S_N, and the
sector around west (225 to 315) to W_E. -/
theorem getRouteDirection_sectors (h : ℚ) (h0 : 0 ≤ h) (h360 : h ≤ 360) :
    ((315 ≤ h ∧ h < 360) ∨ h < 45 → getRouteDirection h = .N_S) ∧
    (45 ≤ h ∧ h < 135 → getRouteDirection h = .E_W) ∧
    (135 ≤ h ∧ h < 225 → getRouteDirection h = .S_N) ∧
    (225 ≤ h ∧ h < 315 → getRouteDirection h = .W_E) := by
  have hnorm : ∀ hlt : h < 360,
      jsMod (jsMod h 360 + 360) 360 = h := by
    intro hlt
    rw [jsMod_of_lt h h0 hlt, jsMod_add_turn h h0 hlt]
  refine ⟨?_, ?_, ?_, ?_⟩
  · rintro (⟨hs1, hs2⟩ | hs)
    · rw [getRouteDirection]
      simp only [hnorm hs2]
      rw [if_pos (Or.inl hs1)]
    · rw [getRouteDirection]
      simp only [hnorm (by linarith)]
      rw [if_pos (Or.inr hs)]
  · rintro ⟨hs1, hs2⟩
    rw [getRouteDirection]
    simp only [hnorm (by linarith)]
    rw [if_neg (by push_neg; exact ⟨by linarith, by linarith⟩),
      if_pos ⟨hs1, hs2⟩]
  · rintro ⟨hs1, hs2⟩
    rw [getRouteDirection]
    simp only [hnorm (by linarith)]
    rw [if_neg (by push_neg; exact ⟨by linarith, by linarith⟩),
      if_neg (by push_neg; intro; linarith), if_pos ⟨hs1, hs2⟩]
  · rintro ⟨hs1, hs2⟩
    rw [getRouteDirection]
    simp only [hnorm (by linarith)]
    rw [if_neg (by push_neg; exact ⟨by linarith, by linarith⟩),
      if_neg (by push_neg; intro; linarith),
      if_neg (by push_neg; intro; linarith)]

/-- Witness for C7 at the concrete heading 90, which lies in the sector
centred on east. -/
theorem getRouteDirection_sectors_witness : getRouteDirection 90 = .E_W :=
  (getRouteDirection_sectors 90 (by norm_num) (by norm_num)).2.1
    ⟨by norm_num, by norm_num⟩

/-- C5 counterexample: at distance 100 and speed 0 the source operation
calculateETA returns the ordinary value 0 rather than failing, while the
etaSeconds of the claim fails with InvalidInput on the same input. -/
theorem calculateETA_not_failing_counterexample :
    calculateETA 100 0 = 0 ∧
      etaSecondsSpec 100 0 = .error .InvalidInput := by
  constructor
  · rw [calculateETA, if_pos le_rfl]
  · rw [etaSecondsSpec, if_pos le_rfl]

/-- C5 as amended: for a speed that is not positive, calculateETA returns
the sentinel value 0 (which the caller formatETA renders as unknown)
instead of failing with InvalidInput, and for a positive speed it returns
distance divided by the speed converted to metres per second. -/
theorem calculateETA_amended (d s : ℝ) :
    (s ≤ 0 → calculateETA d s = 0) ∧
    (0 < s → calculateETA d s = d / (s * 1000 / 3600)) := by
  constructor
  · intro hs
    rw [calculateETA, if_pos hs]
  · intro hs
    rw [calculateETA, if_neg (not_le.mpr hs)]
    congr 1
    ring

/-- Witness for C5 at distance 100 metres and speed 36 kilometres per
hour. -/
theorem calculateETA_amended_witness :
    calculateETA 100 36 = 100 / (36 * 1000 / 3600) :=
  (calculateETA_amended 100 36).2 (by norm_num)

/-- C10: after overrideSignal, the manual_override flag holds exactly when
the status is not normal, and the stored override duration is the supplied
minutes for green or red and 0 for normal, so a signal returned to normal
never retains a positive override duration or an active override flag. -/
theorem overrideSignal_flag_duration (s : TrafficSignalRow)
    (status : OverrideStatus) (d : ℤ) :
    ((overrideSignal s status d).manual_override = true ↔ status ≠ .normal) ∧
    (overrideSignal s status d).override_duration_minutes =
      (if status = .normal then 0 else d) := by
  cases status <;> simp [overrideSignal]

/-- C8: every manual override and every corridor grant carries a duration
defaulting to 15 minutes: overrideSignal stores its supplied duration
(15 when the argument is omitted) for green or red, toggleSignalOverride
stores the fixed 15, a green corridor created without a duration stores
the 15 of the column default, and once the window has elapsed the
modelled expiry returns the signal to normal. -/
theorem override_duration_default_fifteen :
    (∀ s status, status ≠ .normal →
        (overrideSignalDefault s status).override_duration_minutes = 15) ∧
    (∀ s status d, status ≠ .normal →
        (overrideSignal s status d).override_duration_minutes = d) ∧
    (∀ s status, status ≠ .normal →
        (toggleSignalOverride s status).override_duration_minutes = 15) ∧
    (∀ name a b c d,
        (createGreenCorridorDefault name a b c d).duration_minutes = 15) ∧
    (∀ s elapsed, s.manual_override = true →
        s.override_duration_minutes ≤ elapsed →
        (expireSignalOverride s elapsed).override_status = .normal ∧
        (expireSignalOverride s elapsed).manual_override = false ∧
        (expireSignalOverride s elapsed).override_duration_minutes = 0) := by
  refine ⟨?_, ?_, ?_, ?_, ?_⟩
  · intro s status hst
    cases status <;>
      simp_all [overrideSignalDefault, overrideSignal, overrideSignalDefaultDuration]
  · intro s status d hst
    cases status <;> simp_all [overrideSignal]
  · intro s status hst
    cases status <;> simp_all [toggleSignalOverride]
  · intro name a b c d
    rfl
  · intro s elapsed hov hel
    rw [expireSignalOverride, if_pos ⟨hov, hel⟩]
    exact ⟨rfl, rfl, rfl⟩

/-- Witness for C8 on a concrete green override and a concrete expired
signal. -/
theorem override_duration_default_fifteen_witness :
    (overrideSignalDefault ⟨"S1", false, .normal, 0, "normal"⟩
        .green).override_duration_minutes = 15 ∧
    (expireSignalOverride ⟨"S1", true, .green, 15, "green"⟩
        20).override_status = .normal :=
  ⟨override_duration_default_fifteen.1 _ .green (by decide),
    (override_duration_default_fifteen.2.2.2.2
      ⟨"S1", true, .green, 15, "green"⟩ 20 rfl (by decide)).1⟩

/-- C9: the lives-saved analytic equals the count of today's emergency
tokens multiplied by the ad hoc constant 0.85 and rounded down, which is
the integer division of 85 times the count by 100. -/
theorem loadAnalytics_lives_saved (tokens : List EmergencyTokenRow)
    (corridors : List GreenCorridorRow) (signals : List TrafficSignalRow)
    (capacities : List HospitalCapacityRow) (today : ℤ) :
    (loadAnalytics tokens corridors signals capacities
        today).lives_saved_estimate =
      ⌊(((tokens.filter fun t => decide (today ≤ t.created_at)).length : ℚ)
          * (85 / 100))⌋ ∧
    (loadAnalytics tokens corridors signals capacities
        today).lives_saved_estimate =
      (85 * ((tokens.filter fun t => decide (today ≤ t.created_at)).length : ℤ))
        / 100 := by
  have hnum :
      (loadAnalytics tokens corridors signals capacities
          today).lives_saved_estimate =
        ⌊(((tokens.filter fun t => decide (today ≤ t.created_at)).length : ℚ)
            * (85 / 100))⌋ := by
    rw [loadAnalytics]
    norm_num
  refine ⟨hnum, ?_⟩
  have hcast :
      (((tokens.filter fun t => decide (today ≤ t.created_at)).length : ℚ)
          * (85 / 100)) =
        (((85 * ((tokens.filter fun t =>
            decide (today ≤ t.created_at)).length : ℤ) : ℤ) : ℚ) /
          ((100 : ℕ) : ℚ)) := by
    push_cast
    ring
  rw [hnum, hcast, Rat.floor_intCast_div_natCast]
  norm_num

/-- A single transition call never lowers the rank of the state. -/
theorem stateRank_le_stepState :
    ∀ (s : LifecycleState) (e : LifecycleEvent),
      stateRank s ≤ stateRank (stepState s e) := by
  decide

/-- C1: the lifecycle only advances along the progression of section 4.4.
A successful transition moves to the immediate successor in the chain or,
for cancel, to Cancelled, and only from a non-terminal state; a rejected
transition fails with InvalidTransition and leaves the state unchanged;
cancel succeeds from every non-terminal state; and along any sequence of
transition calls the rank of the state never decreases. -/
theorem lifecycle_only_advances :
    (∀ s e t, applyEvent s e = .ok t →
        (t = chainNext s ∧ nonTerminal s = true) ∨
          (t = .Cancelled ∧ nonTerminal s = true)) ∧
    (∀ s e err, applyEvent s e = .error err →
        err = .InvalidTransition ∧ stepState s e = s) ∧
    (∀ s, nonTerminal s = true → applyEvent s .cancel = .ok .Cancelled) ∧
    (∀ s es, stateRank s ≤ stateRank (runEvents s es)) := by
  refine ⟨by decide, by decide, by decide, ?_⟩
  intro s es
  induction es generalizing s with
  | nil => exact le_rfl
  | cons e es ih =>
      exact le_trans (stateRank_le_stepState s e) (ih (stepState s e))

/-- Witness for C1: a concrete rejected call (complete while en route to
pickup) leaves the state unchanged, cancel succeeds from Created, and a
concrete run never lowers the rank. -/
theorem lifecycle_only_advances_witness :
    (DispatchError.InvalidTransition = .InvalidTransition ∧
      stepState .EnRouteToPickup .complete = .EnRouteToPickup) ∧
    applyEvent .Created .cancel = .ok .Cancelled ∧
    stateRank .HospitalAssigned ≤
      stateRank (runEvents .HospitalAssigned
        [.startJourney, .arrivedAtPickup, .complete]) :=
  ⟨lifecycle_only_advances.2.1 .EnRouteToPickup .complete .InvalidTransition
      (by decide),
    lifecycle_only_advances.2.2.1 .Created (by decide),
    lifecycle_only_advances.2.2.2 .HospitalAssigned
      [.startJourney, .arrivedAtPickup, .complete]⟩

/-- A state that is non-terminal after a transition call was already
non-terminal before it. -/
theorem nonTerminal_of_stepState :
    ∀ (s : LifecycleState) (e : LifecycleEvent),
      nonTerminal (stepState s e) = true → nonTerminal s = true := by
  decide

/-- A cancel call always lands in a terminal state. -/
theorem stepState_cancel_terminal :
    ∀ s : LifecycleState, nonTerminal (stepState s .cancel) = false := by
  decide

/-- Creation preserves the exclusive-binding invariant. -/
theorem uniqueBinding_create (c : DispatchCoordinator) (newId v : ℕ)
    (hInv : UniqueBinding c) : UniqueBinding (create c newId v).1 := by
  by_cases hb : vehicleBusy c v = true
  · rw [create, if_pos hb]
    exact hInv
  · rw [create, if_neg hb]
    intro r1 hr1 r2 hr2 hveh h1 h2
    rcases List.mem_cons.mp hr1 with hr1 | hr1 <;>
      rcases List.mem_cons.mp hr2 with hr2 | hr2
    · rw [hr1, hr2]
    · exfalso
      apply hb
      rw [vehicleBusy, List.any_eq_true]
      refine ⟨r2, hr2, ?_⟩
      rw [boundToVehicle]
      subst hr1
      simp_all
    · exfalso
      apply hb
      rw [vehicleBusy, List.any_eq_true]
      refine ⟨r1, hr1, ?_⟩
      rw [boundToVehicle]
      subst hr2
      simp_all
    · exact hInv r1 hr1 r2 hr2 hveh h1 h2

/-- Forwarding a transition call preserves the exclusive-binding
invariant. -/
theorem uniqueBinding_applyToRequest (c : DispatchCoordinator)
    (reqId : ℕ) (e : LifecycleEvent) (hInv : UniqueBinding c) :
    UniqueBinding (applyToRequest c reqId e) := by
  intro r1 hr1 r2 hr2 hveh h1 h2
  rw [applyToRequest] at hr1 hr2
  obtain ⟨x1, hx1, hfx1⟩ := List.mem_map.mp hr1
  obtain ⟨x2, hx2, hfx2⟩ := List.mem_map.mp hr2
  have hfield : ∀ x : EmergencyRequest,
      (if x.id == reqId then
        { x with status := stepState x.status e } else x).vehicleId = x.vehicleId ∧
      (nonTerminal (if x.id == reqId then
        { x with status := stepState x.status e } else x).status = true →
          nonTerminal x.status = true) := by
    intro x
    by_cases hid : x.id == reqId
    · rw [if_pos hid]
      exact ⟨rfl, nonTerminal_of_stepState x.status e⟩
    · rw [if_neg hid]
      exact ⟨rfl, fun hx => hx⟩
  rw [← hfx1, ← hfx2]
  have heq : x1 = x2 := by
    apply hInv x1 hx1 x2 hx2
    · rw [← (hfield x1).1, ← (hfield x2).1, hfx1, hfx2]
      exact hveh
    · exact (hfield x1).2 (by rw [hfx1]; exact h1)
    · exact (hfield x2).2 (by rw [hfx2]; exact h2)
  rw [heq]

/-- Every coordinator state reachable from the empty registry satisfies
the exclusive-binding invariant. -/
theorem uniqueBinding_runOps (ops : List CoordOp) :
    UniqueBinding (runOps ops) := by
  have hstep : ∀ (ops : List CoordOp) (c : DispatchCoordinator),
      UniqueBinding c → UniqueBinding (ops.foldl applyOp c) := by
    intro ops
    induction ops with
    | nil => exact fun c hc => hc
    | cons op ops ih =>
        intro c hc
        apply ih
        cases op with
        | create newId v => exact uniqueBinding_create c newId v hc
        | event reqId e => exact uniqueBinding_applyToRequest c reqId e hc
  apply hstep
  intro r1 hr1
  exact absurd hr1 (List.not_mem_nil r1)

/-- After an event that makes the request bound to a vehicle terminal,
a fresh creation for that vehicle succeeds. -/
theorem create_after_terminal_event (c : DispatchCoordinator)
    (r : EmergencyRequest) (newId : ℕ) (e : LifecycleEvent)
    (hInv : UniqueBinding c) (hr : r ∈ c.requests)
    (hnt : nonTerminal r.status = true)
    (hterm : nonTerminal (stepState r.status e) = false) :
    (create (applyToRequest c r.id e) newId r.vehicleId).2 = none := by
  have hbusy : vehicleBusy (applyToRequest c r.id e) r.vehicleId = false := by
    rw [vehicleBusy, applyToRequest, List.any_map]
    rw [List.any_eq_false]
    intro x hx
    intro hbx
    rw [Function.comp_apply, boundToVehicle, Bool.and_eq_true, beq_iff_eq] at hbx
    obtain ⟨hxv, hxnt⟩ := hbx
    by_cases hid : x.id == r.id
    · rw [if_pos hid] at hxv hxnt
      have hxnt0 : nonTerminal x.status = true :=
        nonTerminal_of_stepState x.status e hxnt
      have hxr : x = r := hInv x hx r hr (by simpa using hxv) hxnt0 hnt
      subst hxr
      simp only at hxnt
      rw [hterm] at hxnt
      exact absurd hxnt (by simp)
    · rw [if_neg hid] at hxv hxnt
      have hxr : x = r := hInv x hx r hr hxv hxnt hnt
      subst hxr
      simp at hid
  rw [create, if_neg (by rw [hbusy]; simp)]

/-- C2: a vehicle is bound to at most one non-terminal request at any
instant.  Creation for an already-bound vehicle fails with VehicleBusy
and returns the registry unchanged; the invariant holds in every state
reachable from the empty registry; and after cancelling the live request
of a vehicle, or completing it from EnRouteToHospital, a new creation for
that vehicle succeeds. -/
theorem vehicle_exclusive_binding :
    (∀ c v newId, vehicleBusy c v = true →
        create c newId v = (c, some .VehicleBusy)) ∧
    (∀ ops, UniqueBinding (runOps ops)) ∧
    (∀ c r newId, UniqueBinding c → r ∈ c.requests →
        nonTerminal r.status = true →
        (create (applyToRequest c r.id .cancel) newId r.vehicleId).2 = none) ∧
    (∀ c r newId, UniqueBinding c → r ∈ c.requests →
        r.status = .EnRouteToHospital →
        (create (applyToRequest c r.id .complete) newId r.vehicleId).2 =
          none) := by
  refine ⟨?_, uniqueBinding_runOps, ?_, ?_⟩
  · intro c v newId hb
    rw [create, if_pos hb]
  · intro c r newId hInv hr hnt
    exact create_after_terminal_event c r newId .cancel hInv hr hnt
      (stepState_cancel_terminal r.status)
  · intro c r newId hInv hr hs
    refine create_after_terminal_event c r newId .complete hInv hr ?_ ?_ <;>
      rw [hs] <;> decide

/-- Witness for C2 on a concrete registry holding one live request for
vehicle 7: a second creation fails with VehicleBusy, and after completing
the request a new creation succeeds. -/
theorem vehicle_exclusive_binding_witness :
    create { requests := [⟨1, 7, .EnRouteToHospital⟩] } 2 7 =
      ({ requests := [⟨1, 7, .EnRouteToHospital⟩] }, some .VehicleBusy) ∧
    (create (applyToRequest { requests := [⟨1, 7, .EnRouteToHospital⟩] }
        1 .complete) 2 7).2 = none :=
  ⟨vehicle_exclusive_binding.1 { requests := [⟨1, 7, .EnRouteToHospital⟩] }
      7 2 (by decide),
    vehicle_exclusive_binding.2.2.2
      { requests := [⟨1, 7, .EnRouteToHospital⟩] }
      ⟨1, 7, .EnRouteToHospital⟩ 2 (by decide) (by decide)
      (by decide)⟩

/-- The fold of the selector returns a candidate from the pool whose
score is minimal, with ties broken towards the smallest hospital id. -/
theorem pickBest_spec (w : SelectorWeights) (pickup : Coordinate) :
    ∀ (l : List HospitalCapacitySnapshot) (b : HospitalCapacitySnapshot),
      pickBest w pickup b l ∈ b :: l ∧
      ∀ x ∈ b :: l,
        hospitalScore w pickup (pickBest w pickup b l) ≤
            hospitalScore w pickup x ∧
          (hospitalScore w pickup x =
              hospitalScore w pickup (pickBest w pickup b l) →
            (pickBest w pickup b l).hospitalId ≤ x.hospitalId) := by
  intro l
  induction l with
  | nil =>
      intro b
      refine ⟨List.mem_singleton_self b, ?_⟩
      intro x hx
      rw [List.mem_singleton] at hx
      subst hx
      exact ⟨le_rfl, fun _ => le_rfl⟩
  | cons h t ih =>
      intro b
      by_cases hc : betterCandidate w pickup h b
      · rw [pickBest, if_pos hc]
        obtain ⟨hmem, hbound⟩ := ih h
        refine ⟨List.mem_cons_of_mem b hmem, ?_⟩
        intro x hx
        rcases List.mem_cons.mp hx with hx | hx
        · subst hx
          have hh := hbound h (List.mem_cons_self h t)
          rcases hc with hlt | ⟨heq, hid⟩
          · constructor
            · exact le_trans hh.1 (le_of_lt hlt)
            · intro htie
              exfalso
              have := hh.1
              linarith
          · constructor
            · exact le_trans hh.1 (le_of_eq heq)
            · intro htie
              have hs1 : hospitalScore w pickup h =
                  hospitalScore w pickup (pickBest w pickup h t) := by
                have := hh.1
                linarith
              exact le_trans (hh.2 hs1) (le_of_lt hid)
        · exact hbound x hx
      · rw [pickBest, if_neg hc]
        rw [betterCandidate] at hc
        push_neg at hc
        obtain ⟨hle, hid⟩ := hc
        obtain ⟨hmem, hbound⟩ := ih b
        constructor
        · rcases List.mem_cons.mp hmem with hm | hm
          · rw [hm]
            exact List.mem_cons_self b (h :: t)
          · exact List.mem_cons_of_mem b (List.mem_cons_of_mem h hm)
        · intro x hx
          rcases List.mem_cons.mp hx with hx | hx
          · subst hx
            exact hbound x (List.mem_cons_self x t)
          · rcases List.mem_cons.mp hx with hx | hx
            · subst hx
              have hb := hbound b (List.mem_cons_self b t)
              constructor
              · exact le_trans hb.1 hle
              · intro htie
                have hsb : hospitalScore w pickup b =
                    hospitalScore w pickup (pickBest w pickup b t) := by
                  have := hb.1
                  linarith
                have hhb : hospitalScore w pickup x =
                    hospitalScore w pickup b := by
                  linarith
                exact le_trans (hb.2 hsb) (hid hhb)
            · exact hbound x (List.mem_cons_of_mem b hx)

/-- C3: on any pool whose accepting sub-list is non-empty, the selector
returns a hospital of that sub-list whose composite score is lowest, with
equal scores broken towards the lexicographically smallest hospital id;
being a function of its inputs, it returns the identical hospital on
identical inputs. -/
theorem selectHospital_lowest_score (w : SelectorWeights) (pickup : Coordinate)
    (hospitals : List HospitalCapacitySnapshot)
    (hne : hospitals.filter (fun h => h.acceptingPatients) ≠ []) :
    ∃ best,
      selectHospital w pickup hospitals = .ok best ∧
      best ∈ hospitals.filter (fun h => h.acceptingPatients) ∧
      ∀ h ∈ hospitals.filter (fun h => h.acceptingPatients),
        hospitalScore w pickup best ≤ hospitalScore w pickup h ∧
          (hospitalScore w pickup h = hospitalScore w pickup best →
            best.hospitalId ≤ h.hospitalId) := by
  obtain ⟨h0, t, heq⟩ :
      ∃ h0 t, hospitals.filter (fun h => h.acceptingPatients) = h0 :: t := by
    cases hl : hospitals.filter (fun h => h.acceptingPatients) with
    | nil => exact absurd hl hne
    | cons h0 t => exact ⟨h0, t, rfl⟩
  obtain ⟨hmem, hbound⟩ := pickBest_spec w pickup t h0
  refine ⟨pickBest w pickup h0 t, ?_, ?_, ?_⟩
  · rw [selectHospital, heq]
  · rw [heq]
    exact hmem
  · rw [heq]
    exact hbound

/-- Witness for C3 on a concrete two-hospital pool with equal scores:
the selector picks the lexicographically smaller id. -/
theorem selectHospital_lowest_score_witness :
    ∃ best,
      selectHospital defaultWeights ⟨0, 0⟩
          [⟨"H2", ⟨0, 0⟩, 10, 0, 0, 0, 0, 0, true, 0⟩,
            ⟨"H1", ⟨0, 0⟩, 10, 0, 0, 0, 0, 0, true, 0⟩] = .ok best ∧
      best ∈ ([⟨"H2", ⟨0, 0⟩, 10, 0, 0, 0, 0, 0, true, 0⟩,
          ⟨"H1", ⟨0, 0⟩, 10, 0, 0, 0, 0, 0, true, 0⟩] :
            List HospitalCapacitySnapshot).filter
          (fun h => h.acceptingPatients) ∧
      ∀ h ∈ ([⟨"H2", ⟨0, 0⟩, 10, 0, 0, 0, 0, 0, true, 0⟩,
          ⟨"H1", ⟨0, 0⟩, 10, 0, 0, 0, 0, 0, true, 0⟩] :
            List HospitalCapacitySnapshot).filter
          (fun h => h.acceptingPatients),
        hospitalScore defaultWeights ⟨0, 0⟩ best ≤
            hospitalScore defaultWeights ⟨0, 0⟩ h ∧
          (hospitalScore defaultWeights ⟨0, 0⟩ h =
              hospitalScore defaultWeights ⟨0, 0⟩ best →
            best.hospitalId ≤ h.hospitalId) :=
  selectHospital_lowest_score defaultWeights ⟨0, 0⟩ _ (by simp)

/-- C4: when no hospital in the pool is accepting patients, the selector
fails with NoAvailableHospital and never returns a hospital. -/
theorem selectHospital_none_accepting (w : SelectorWeights)
    (pickup : Coordinate) (hospitals : List HospitalCapacitySnapshot)
    (hempty : hospitals.filter (fun h => h.acceptingPatients) = []) :
    selectHospital w pickup hospitals = .error .NoAvailableHospital := by
  rw [selectHospital, hempty]

/-- Witness for C4 on a concrete pool whose only hospital is not
accepting patients. -/
theorem selectHospital_none_accepting_witness :
    selectHospital defaultWeights ⟨0, 0⟩
        [⟨"H1", ⟨0, 0⟩, 10, 0, 0, 0, 0, 0, false, 0⟩] =
      .error .NoAvailableHospital :=
  selectHospital_none_accepting defaultWeights ⟨0, 0⟩ _ (by simp)

/-- The intermediate haversine value is symmetric in its two coordinate
pairs. -/
theorem haversineA_symm (x1 y1 x2 y2 : ℝ) :
    haversineA x1 y1 x2 y2 = haversineA x2 y2 x1 y1 := by
  rw [haversineA, haversineA]
  have hx : toRadians (x1 - x2) = -toRadians (x2 - x1) := by
    rw [toRadians, toRadians]
    ring
  have hy : toRadians (y1 - y2) = -toRadians (y2 - y1) := by
    rw [toRadians, toRadians]
    ring
  rw [hx, hy, neg_div, neg_div]
  simp only [Real.sin_neg]
  ring

/-- The intermediate haversine value vanishes on coinciding inputs. -/
theorem haversineA_self (x y : ℝ) : haversineA x y x y = 0 := by
  rw [haversineA]
  simp [toRadians]

/-- The two-argument arctangent of 0 and 1 is 0. -/
theorem atan2_zero_one : atan2 0 1 = 0 := by
  rw [atan2, if_pos one_pos]
  simp [Real.arctan_zero]

/-- The distance vanishes whenever the intermediate haversine value
does. -/
theorem calculateDistance_eq_zero (lat1 lng1 lat2 lng2 : ℝ)
    (hA : haversineA lat1 lng1 lat2 lng2 = 0) :
    calculateDistance lat1 lng1 lat2 lng2 = 0 := by
  rw [calculateDistance, hA, Real.sqrt_zero]
  norm_num [Real.sqrt_one, atan2_zero_one]

/-- The haversine distance is symmetric. -/
theorem calculateDistance_symm (x1 y1 x2 y2 : ℝ) :
    calculateDistance x1 y1 x2 y2 = calculateDistance x2 y2 x1 y1 := by
  rw [calculateDistance, calculateDistance, haversineA_symm]

/-- The haversine distance from a point to itself is 0. -/
theorem calculateDistance_self (x y : ℝ) : calculateDistance x y x y = 0 :=
  calculateDistance_eq_zero x y x y (haversineA_self x y)

/-- C6 counterexample: the two distinct valid coordinates at latitude 90
and longitudes 0 and 10 have haversine distance 0, so a distance of 0
does not imply equal coordinates. -/
theorem distance_zero_at_pole_counterexample :
    validCoordinate ⟨90, 0⟩ ∧ validCoordinate ⟨90, 10⟩ ∧
    distanceMeters ⟨90, 0⟩ ⟨90, 10⟩ = 0 ∧
    (⟨90, 0⟩ : Coordinate) ≠ ⟨90, 10⟩ := by
  refine ⟨⟨by norm_num, by norm_num⟩, ⟨by norm_num, by norm_num⟩, ?_, ?_⟩
  · show calculateDistance 90 0 90 10 = 0
    apply calculateDistance_eq_zero
    rw [haversineA]
    have h90 : toRadians 90 = Real.pi / 2 := by
      rw [toRadians]
      ring
    rw [h90, Real.cos_pi_div_two]
    norm_num [toRadians]
  · intro hcontra
    have := congrArg Coordinate.lng hcontra
    norm_num at this

/-- C6 as amended: the distance is symmetric, equal coordinates give
distance 0, and consequently the ETA round-trip at any positive speed is
symmetric and vanishes on equal coordinates; but distance 0 does not
conversely force the coordinates to be equal. -/
theorem distance_eta_symmetric_roundtrip (a b : Coordinate) (s : ℝ)
    (ha : validCoordinate a) (hb : validCoordinate b) :
    distanceMeters a b = distanceMeters b a ∧
    (a = b → distanceMeters a b = 0) ∧
    (0 < s →
      calculateETA (distanceMeters a b) s =
        calculateETA (distanceMeters b a) s) ∧
    (a = b → 0 < s → calculateETA (distanceMeters a b) s = 0) := by
  have hsymm : distanceMeters a b = distanceMeters b a := by
    rw [distanceMeters, distanceMeters, calculateDistance_symm]
  refine ⟨hsymm, ?_, fun _ => by rw [hsymm], ?_⟩
  · rintro rfl
    rw [distanceMeters]
    exact calculateDistance_self a.lat a.lng
  · rintro rfl hs
    rw [distanceMeters, calculateDistance_self, calculateETA,
      if_neg (not_le.mpr hs), zero_div]

/-- Witness for C6 at the coordinate origin and speed 10. -/
theorem distance_eta_symmetric_roundtrip_witness :
    calculateETA (distanceMeters ⟨0, 0⟩ ⟨0, 0⟩) 10 = 0 :=
  (distance_eta_symmetric_roundtrip ⟨0, 0⟩ ⟨0, 0⟩ 10
      (by norm_num [validCoordinate]) (by norm_num [validCoordinate])).2.2.2
    rfl (by norm_num)

end Mediroute
